import Mathlib

/-!
Verification development for the Food-Bank database backend
(`src/backend/main.py`, `src/import_example.py`).

The FastAPI route handlers of `main.py` and the row-preparation helper
`prepare_food_data` of `import_example.py` are embedded directly from the
source.  The storage layer (`crud.py`, `database.py`, `schemas.py`) is
imported by `main.py` but its source is not part of the repository
snapshot; those functions are modelled from the specification (each such
definition carries a `Modelled from the spec:` doc comment).
-/

namespace FoodBank

/-- A calendar date, as produced by parsing a `YYYY-MM-DD` string. -/
structure Date where
  year : Nat
  month : Nat
  day : Nat
deriving DecidableEq, Repr

/-- Gregorian leap-year rule (as used by Python's `datetime`). -/
def isLeap (y : Nat) : Bool :=
  (y % 4 == 0 && y % 100 != 0) || (y % 400 == 0)

/-- Number of days in a month, matching `datetime`'s validation. -/
def daysInMonth (y m : Nat) : Nat :=
  if m == 2 then (if isLeap y then 29 else 28)
  else if m == 4 || m == 6 || m == 9 || m == 11 then 30
  else 31

/-- Take up to `w` leading digit characters (at least one), as
`strptime`'s numeric directives do; returns the digits and the rest. -/
def grabDigits : Nat → List Char → List Char × List Char
  | 0, cs => ([], cs)
  | _ + 1, [] => ([], [])
  | w + 1, c :: cs =>
    if c.isDigit then
      let (ds, rest) := grabDigits w cs
      (c :: ds, rest)
    else ([], c :: cs)

/-- Numeric value of a digit string. -/
def digitsToNat (ds : List Char) : Nat :=
  ds.foldl (fun a c => a * 10 + (c.toNat - 48)) 0

/-- Parse up to `w` digits from the front of a character list. -/
def grabNum (w : Nat) (cs : List Char) : Option (Nat × List Char) :=
  let (ds, rest) := grabDigits w cs
  if ds = [] then none else some (digitsToNat ds, rest)

/-- Model of `datetime.strptime(s, "%Y-%m-%d")` from
`src/import_example.py` line 65: the `%Y` field is exactly four digits
(CPython compiles it to four digit matches, so years below 1000 must be
zero-padded), `%m` and `%d` take one or two digits greedily, the dashes
are literal, no unconverted data may remain, and the month/day must form
a real calendar date of a positive year. -/
def parseYMD (s : String) : Option Date :=
  match grabDigits 4 s.data with
  | (ys, r1) =>
    if ys.length = 4 then
      match r1 with
      | '-' :: r2 =>
        match grabNum 2 r2 with
        | none => none
        | some (m, r3) =>
          match r3 with
          | '-' :: r4 =>
            match grabNum 2 r4 with
            | none => none
            | some (d, r5) =>
              if r5 = [] ∧ 1 ≤ digitsToNat ys ∧ 1 ≤ m ∧ m ≤ 12 ∧
                  1 ≤ d ∧ d ≤ daysInMonth (digitsToNat ys) m then
                some ⟨digitsToNat ys, m, d⟩
              else none
          | _ => none
      | _ => none
    else none

/-- One inventory record (table `FoodItem`, spec §3): identifier is
system-generated and unique, barcode is intentionally not unique,
quantity is a signed integer with no floor. -/
structure FoodItem where
  id : Nat
  barcode : String
  name : String
  brand : Option String := none
  category : Option String := none
  calories : Option Int := none
  protein : Option Rat := none
  fat : Option Rat := none
  carbs : Option Rat := none
  fiber : Option Rat := none
  sugars : Option Rat := none
  sodium : Option Rat := none
  allergens : List String := []
  expiry_date : Option Date := none
  quantity : Int := 1
  location : Option String := none
  created_at : Nat := 0
  updated_at : Nat := 0
deriving DecidableEq, Repr

/-- Append-only audit record of a quantity change (spec §3). -/
structure NutritionLogEntry where
  id : Nat
  food_id : Nat
  quantity : Int
  action : String
  timestamp : Nat
deriving DecidableEq, Repr

/-- The persistent state: the two tables plus id counters and the
current clock/date used for generated timestamps. -/
structure DB where
  foods : List FoodItem := []
  logs : List NutritionLogEntry := []
  nextFoodId : Nat := 0
  nextLogId : Nat := 0
  now : Nat := 0
  today : Date := ⟨2024, 1, 1⟩
deriving DecidableEq, Repr

/-- The field set accepted by `CreateFood` (schema `FoodCreate`):
everything of a `FoodItem` except the generated id and timestamps. -/
structure FoodCreate where
  barcode : String
  name : String
  brand : Option String := none
  category : Option String := none
  calories : Option Int := none
  protein : Option Rat := none
  fat : Option Rat := none
  carbs : Option Rat := none
  fiber : Option Rat := none
  sugars : Option Rat := none
  sodium : Option Rat := none
  allergens : List String := []
  expiry_date : Option Date := none
  quantity : Int := 1
  location : Option String := none
deriving DecidableEq, Repr

/-- Modelled from the spec: `create(fields) -> FoodItem` of the Record
Store (`crud.create_food`, absent from `src/`); §4.1: always inserts a
new row with a fresh system-generated identifier, even if the barcode
duplicates an existing row (no uniqueness check). -/
def create_food (db : DB) (fc : FoodCreate) : FoodItem × DB :=
  let item : FoodItem :=
    { id := db.nextFoodId, barcode := fc.barcode, name := fc.name,
      brand := fc.brand, category := fc.category, calories := fc.calories,
      protein := fc.protein, fat := fc.fat, carbs := fc.carbs,
      fiber := fc.fiber, sugars := fc.sugars, sodium := fc.sodium,
      allergens := fc.allergens, expiry_date := fc.expiry_date,
      quantity := fc.quantity, location := fc.location,
      created_at := db.now, updated_at := db.now }
  (item, { db with foods := db.foods ++ [item], nextFoodId := db.nextFoodId + 1 })

/-- Modelled from the spec: `getById(id) -> FoodItem | NotFound`
(`crud.get_food_by_id`, absent from `src/`). -/
def get_food_by_id (db : DB) (id : Nat) : Option FoodItem :=
  db.foods.find? (fun f => f.id == id)

/-- Modelled from the spec: `getByBarcode` returns the first match,
oldest first (`crud.get_food_by_barcode`, absent from `src/`). -/
def get_food_by_barcode (db : DB) (b : String) : Option FoodItem :=
  db.foods.find? (fun f => f.barcode == b)

/-- Modelled from the spec: paginated listing
(`crud.get_all_foods`, absent from `src/`). -/
def get_all_foods (db : DB) (skip limit : Nat) : List FoodItem :=
  (db.foods.drop skip).take limit

/-- Modelled from the spec: `deleteByBarcode(barcode) -> count`
(`crud.delete_food_by_barcode`, absent from `src/`); §4.1: deletes every
row whose barcode matches and returns the number deleted. -/
def delete_food_by_barcode (db : DB) (b : String) : Nat × DB :=
  ((db.foods.filter (fun f => f.barcode == b)).length,
   { db with foods := db.foods.filter (fun f => f.barcode != b) })

/-- Modelled from the spec: `lowStock(threshold)` (`crud.get_low_stock_foods`,
absent from `src/`); §4.5: strict inequality `quantity < threshold`. -/
def get_low_stock_foods (db : DB) (threshold : Int) : List FoodItem :=
  db.foods.filter (fun f => decide (f.quantity < threshold))

/-- Modelled from the spec: `byCategory(category)` exact match
(`crud.get_foods_by_category`, absent from `src/`). -/
def get_foods_by_category (db : DB) (c : String) : List FoodItem :=
  db.foods.filter (fun f => f.category == some c)

/-- Serial day number of a date (proleptic Gregorian), used to compare
expiry dates against `today + days_ahead`. -/
def cumDaysBefore (y m : Nat) : Nat :=
  (List.range (m - 1)).foldl (fun a i => a + daysInMonth y (i + 1)) 0

/-- Days elapsed from an epoch to a date, monotone in the date. -/
def dateToDayNum (d : Date) : Nat :=
  365 * (d.year - 1) + (d.year - 1) / 4 - (d.year - 1) / 100 +
    (d.year - 1) / 400 + cumDaysBefore d.year d.month + d.day

/-- Modelled from the spec: `expiringWithin(days)`: expiry present and
`expiry_date <= today + days` (`crud.get_expiring_foods`, absent from
`src/`). -/
def get_expiring_foods (db : DB) (days_ahead : Nat) : List FoodItem :=
  db.foods.filter (fun f =>
    match f.expiry_date with
    | some d => decide (dateToDayNum d ≤ dateToDayNum db.today + days_ahead)
    | none => false)

/-- Is `n` a contiguous sublist starting at the front of `h`? -/
def listPref : List Char → List Char → Bool
  | [], _ => true
  | _ :: _, [] => false
  | a :: as, b :: bs => a == b && listPref as bs

/-- Is `n` a contiguous sublist of `h` anywhere? -/
def listSub (n : List Char) : List Char → Bool
  | [] => listPref n []
  | c :: cs => listPref n (c :: cs) || listSub n cs

/-- Case-insensitive substring test over strings. -/
def strContainsCI (hay needle : String) : Bool :=
  listSub (needle.data.map Char.toLower) (hay.data.map Char.toLower)

/-- Modelled from the spec: `search(text, offset, limit)` substring match
over name and brand, case-insensitive (`crud.search_foods`, absent from
`src/`). -/
def search_foods (db : DB) (q : String) (skip limit : Nat) : List FoodItem :=
  (((db.foods.filter (fun f =>
      strContainsCI f.name q ||
        (match f.brand with
         | some b => strContainsCI b q
         | none => false))).drop skip).take limit)

/-- Modelled from the spec: Event Log `list` ordered by creation time
descending, paginated (`crud.get_nutrition_logs`, absent from `src/`).
`DB.logs` is kept in append (creation) order, so descending is its
reverse. -/
def get_nutrition_logs (db : DB) (food_id : Option Nat) (skip limit : Nat) :
    List NutritionLogEntry :=
  let l : List NutritionLogEntry := match food_id with
    | some fid => db.logs.filter (fun e => e.food_id == fid)
    | none => db.logs
  ((l.reverse).drop skip).take limit

/-- The partial-field set accepted by `UpdateFood` (schema `FoodUpdate`):
every field optional; a `none` field is an omitted field. -/
structure FoodUpdate where
  barcode : Option String := none
  name : Option String := none
  brand : Option String := none
  category : Option String := none
  calories : Option Int := none
  protein : Option Rat := none
  fat : Option Rat := none
  carbs : Option Rat := none
  fiber : Option Rat := none
  sugars : Option Rat := none
  sodium : Option Rat := none
  allergens : Option (List String) := none
  expiry_date : Option Date := none
  quantity : Option Int := none
  location : Option String := none
deriving DecidableEq, Repr

/-- Whether the payload is empty after filtering out null fields
(`main.py` lines 149-152: `{k: v for k, v in ... if v is not None}`
being empty). -/
def FoodUpdate.isEmptyUpdate (u : FoodUpdate) : Bool :=
  u.barcode.isNone && u.name.isNone && u.brand.isNone && u.category.isNone &&
  u.calories.isNone && u.protein.isNone && u.fat.isNone && u.carbs.isNone &&
  u.fiber.isNone && u.sugars.isNone && u.sodium.isNone && u.allergens.isNone &&
  u.expiry_date.isNone && u.quantity.isNone && u.location.isNone

/-- Apply a present field over an optional stored field. -/
def updOpt (u old : Option α) : Option α :=
  match u with
  | some v => some v
  | none => old

/-- Modelled from the spec: §4.1 `update(id, partialFields)`: only
non-null fields of the partial set are applied; omitted/null fields are
untouched. -/
def applyUpdate (f : FoodItem) (u : FoodUpdate) (now : Nat) : FoodItem :=
  { f with
    barcode := u.barcode.getD f.barcode,
    name := u.name.getD f.name,
    brand := updOpt u.brand f.brand,
    category := updOpt u.category f.category,
    calories := updOpt u.calories f.calories,
    protein := updOpt u.protein f.protein,
    fat := updOpt u.fat f.fat,
    carbs := updOpt u.carbs f.carbs,
    fiber := updOpt u.fiber f.fiber,
    sugars := updOpt u.sugars f.sugars,
    sodium := updOpt u.sodium f.sodium,
    allergens := u.allergens.getD f.allergens,
    expiry_date := updOpt u.expiry_date f.expiry_date,
    quantity := u.quantity.getD f.quantity,
    location := updOpt u.location f.location,
    updated_at := now }

/-- Modelled from the spec: `update(id, partialFields) -> FoodItem |
NotFound` (`crud.update_food`, absent from `src/`). -/
def update_food (db : DB) (id : Nat) (u : FoodUpdate) : Option FoodItem × DB :=
  match get_food_by_id db id with
  | none => (none, db)
  | some f =>
    let f' := applyUpdate f u db.now
    (some f',
     { db with foods := db.foods.map (fun g => if g.id == id then f' else g) })

/-- Modelled from the spec: §4.2 `adjustQuantity(id, delta, action)`
(`crud.update_quantity`, absent from `src/`): applies `quantity += delta`
unconditionally and, in the same logical operation, appends a
NutritionLogEntry with the same delta and action; on a missing id neither
happens. -/
def update_quantity (db : DB) (id : Nat) (delta : Int) (action : String) :
    Option FoodItem × DB :=
  match get_food_by_id db id with
  | none => (none, db)
  | some f =>
    let f' := { f with quantity := f.quantity + delta, updated_at := db.now }
    let entry : NutritionLogEntry :=
      { id := db.nextLogId, food_id := id, quantity := delta,
        action := action, timestamp := db.now }
    (some f',
     { db with
       foods := db.foods.map (fun g => if g.id == id then f' else g),
       logs := db.logs ++ [entry],
       nextLogId := db.nextLogId + 1 })

/-- The loosely-typed `allergens` cell of a bulk-import row: absent
(null/NaN), a bare string, or a list of strings. -/
inductive AllergensField
  | absent
  | str (s : String)
  | list (l : List String)
deriving DecidableEq, Repr

/-- A loosely-typed bulk-import row (spec §4.4).  Missing-value markers
(nulls/NaN) have already been normalised to `none`/`absent`, matching
step 1 of the importer and the NaN cleanup of
`src/import_example.py` lines 39-42. -/
structure RawRow where
  barcode : Option String := none
  name : Option String := none
  brand : Option String := none
  category : Option String := none
  calories : Option Int := none
  protein : Option Rat := none
  fat : Option Rat := none
  carbs : Option Rat := none
  fiber : Option Rat := none
  sugars : Option Rat := none
  sodium : Option Rat := none
  allergens : AllergensField := .absent
  expiry_date : Option String := none
  quantity : Option Int := none
  location : Option String := none
deriving DecidableEq, Repr

/-- A required string cell is missing when the field is absent or its
value is empty (Python: `'barcode' not in item or not item['barcode']`). -/
def missingStr : Option String → Bool
  | none => true
  | some s => s.isEmpty

/-- A row passes required-field validation when both `barcode` and
`name` are present and non-empty (spec §4.4 step 2;
`src/import_example.py` lines 44-48). -/
def rowValid (r : RawRow) : Bool :=
  !(missingStr r.barcode || missingStr r.name)

/-- Normalise the allergens cell: a single string becomes a one-element
list, a list passes through, empty/absent becomes the empty list
(spec §4.4 step 4; `src/import_example.py` lines 54-56). -/
def normalizeAllergens : AllergensField → List String
  | .absent => []
  | .str s => if s.isEmpty then [] else [s]
  | .list l => l

/-- Normalise a row that passed required-field validation into the
`CreateFood` field set: `quantity` defaults to 1 when absent (step 3),
allergens are normalised (step 4), and `expiry_date` parses as
`YYYY-MM-DD` or degrades to absent (step 5). -/
def normalizeValidRow (r : RawRow) : FoodCreate :=
  { barcode := r.barcode.getD "", name := r.name.getD "",
    brand := r.brand, category := r.category, calories := r.calories,
    protein := r.protein, fat := r.fat, carbs := r.carbs,
    fiber := r.fiber, sugars := r.sugars, sodium := r.sodium,
    allergens := normalizeAllergens r.allergens,
    expiry_date := r.expiry_date.bind parseYMD,
    quantity := r.quantity.getD 1, location := r.location }

/-- The outcome of a bulk import (spec §4.4 `ImportReport`). -/
structure ImportReport where
  totalRows : Nat
  succeeded : Nat
  failed : Nat
  perRowErrors : List (Nat × String)
deriving DecidableEq, Repr

/-- Row-by-row worker of the bulk importer, carrying the index of the
next row.  An invalid row is recorded as a per-row failure with reason
"missing required field" and skipped; a valid row is normalised and
inserted; no row's failure affects the rest of the batch. -/
def bulkImportGo (db : DB) (idx : Nat) : List RawRow → ImportReport × DB
  | [] => ({ totalRows := 0, succeeded := 0, failed := 0, perRowErrors := [] }, db)
  | r :: rs =>
    if rowValid r then
      let db1 := (create_food db (normalizeValidRow r)).2
      let (rep, db') := bulkImportGo db1 (idx + 1) rs
      ({ rep with totalRows := rep.totalRows + 1, succeeded := rep.succeeded + 1 },
       db')
    else
      let (rep, db') := bulkImportGo db (idx + 1) rs
      ({ totalRows := rep.totalRows + 1, succeeded := rep.succeeded,
         failed := rep.failed + 1,
         perRowErrors := (idx, "missing required field") :: rep.perRowErrors },
       db')

/-- Modelled from the spec: §4.4 Bulk Importer
(`crud.bulk_import_from_dataframe`, absent from `src/`): independent
per-row processing producing an `ImportReport`; never raises for partial
failures. -/
def bulk_import_from_dataframe (db : DB) (rows : List RawRow) :
    ImportReport × DB :=
  bulkImportGo db 0 rows

/-- Per-item body of `prepare_food_data` (`src/import_example.py` lines
38-69): reject (raise `ValueError`) on a missing/empty required field,
otherwise default quantity, normalise a string allergens cell, and blank
an `expiry_date` that fails `strptime("%Y-%m-%d")`. -/
def prepareItem (item : RawRow) : Except String RawRow :=
  if missingStr item.barcode then .error "barcode is required for all items"
  else if missingStr item.name then .error "name is required for all items"
  else
    let q : Option Int := match item.quantity with
      | none => some 1
      | some v => some v
    let alg : AllergensField := match item.allergens with
      | .str s => if s.isEmpty then .list [] else .list [s]
      | a => a
    let ed : Option String := match item.expiry_date with
      | some s =>
        if s.isEmpty then some s
        else match parseYMD s with
          | some _ => some s
          | none => none
      | none => none
    .ok { item with quantity := q, allergens := alg, expiry_date := ed }

/-- `prepare_food_data` (`src/import_example.py` lines 12-71): cleans the
whole batch item by item; the first `ValueError` aborts the whole call. -/
def prepare_food_data : List RawRow → Except String (List RawRow)
  | [] => .ok []
  | r :: rs =>
    match prepareItem r with
    | .error e => .error e
    | .ok r' =>
      match prepare_food_data rs with
      | .error e => .error e
      | .ok rs' => .ok (r' :: rs')

/-- A client-facing HTTP error (`fastapi.HTTPException`): status code
plus a human-readable detail string. -/
structure HTTPError where
  status_code : Nat
  detail : String
deriving DecidableEq, Repr

/-- Outcome of a request: either an HTTP error or a payload. -/
abbrev ApiResult (α : Type) := Except HTTPError α

/-- Response body of the health endpoint. -/
structure HealthResponse where
  status : String
  timestamp : Nat
deriving DecidableEq, Repr

/-- `health_check` (`main.py` lines 69-72): unconditionally reports
"healthy" with the current timestamp. -/
def health_check (now : Nat) : HealthResponse :=
  { status := "healthy", timestamp := now }

/-- `lifespan` (`main.py` lines 33-45): runs table creation and a
connection test at startup; every failure branch only emits a log line. -/
def lifespan (createTablesOk connOk : Bool) : List String :=
  if !createTablesOk then ["Startup error"]
  else if connOk then ["Database connection successful"]
  else ["Database connection failed"]

/-- A running application: its store plus whatever the startup hook
logged. -/
structure Server where
  db : DB
  startupLogs : List String
deriving DecidableEq, Repr

/-- Build the application state: the startup hook can only log. -/
def startServer (db : DB) (createTablesOk connOk : Bool) : Server :=
  { db := db, startupLogs := lifespan createTablesOk connOk }

/-- The health route of a running server (`main.py` lines 69-72): it
takes no data from the store or the startup outcome. -/
def server_health (_s : Server) (now : Nat) : HealthResponse :=
  health_check now

/-- `create_food_endpoint` (`main.py` lines 76-92): always creates a new
item, never checking for duplicates. -/
def create_food_endpoint (db : DB) (food : FoodCreate) :
    ApiResult (FoodItem × DB) :=
  .ok (create_food db food)

/-- `update_food_endpoint` (`main.py` lines 142-164): 400 when the
payload is empty after dropping null fields, 404 when the id does not
resolve, otherwise the updated item. -/
def update_food_endpoint (db : DB) (food_id : Nat) (u : FoodUpdate) :
    ApiResult (FoodItem × DB) :=
  if u.isEmptyUpdate then
    .error { status_code := 400, detail := "No update data provided" }
  else
    match update_food db food_id u with
    | (none, _) => .error { status_code := 404, detail := "Food not found" }
    | (some f, db') => .ok (f, db')

/-- Request body of the quantity route (schema `QuantityUpdateRequest`). -/
structure QuantityUpdateRequest where
  quantity_change : Int
  action : String
deriving DecidableEq, Repr

/-- `update_quantity_endpoint` (`main.py` lines 167-182): adjust the
quantity and log the change, 404 when the id does not resolve. -/
def update_quantity_endpoint (db : DB) (food_id : Nat)
    (q : QuantityUpdateRequest) : ApiResult (FoodItem × DB) :=
  match update_quantity db food_id q.quantity_change q.action with
  | (none, _) => .error { status_code := 404, detail := "Food not found" }
  | (some f, db') => .ok (f, db')

/-- `delete_food_by_barcode_endpoint` (`main.py` lines 196-205): 404 when
nothing matched, otherwise a fixed confirmation message naming only the
barcode. -/
def delete_food_by_barcode_endpoint (db : DB) (barcode : String) :
    ApiResult (String × DB) :=
  if (delete_food_by_barcode db barcode).1 == 0 then
    .error { status_code := 404,
             detail := "No food items found with this barcode" }
  else
    .ok ("All food items with barcode " ++ barcode ++ " have been deleted",
         (delete_food_by_barcode db barcode).2)

/-- What the caller of the barcode-delete route can observe: the error
or the message body, not the server-side store. -/
def clientView (r : ApiResult (String × DB)) : Except HTTPError String :=
  r.map (fun p => p.1)

/-- `get_foods_endpoint` (`main.py` lines 119-127): FastAPI
`Query(0, ge=0)` / `Query(100, ge=1, le=1000)` reject out-of-range
parameters with a 422 before the handler body (and hence the store) is
reached. -/
def get_foods_endpoint (db : DB) (skip limit : Int) :
    ApiResult (List FoodItem) :=
  if skip < 0 ∨ limit < 1 ∨ limit > 1000 then
    .error { status_code := 422, detail := "Unprocessable Entity" }
  else
    .ok (get_all_foods db skip.toNat limit.toNat)

/-- `search_foods_endpoint` (`main.py` lines 130-139): same pagination
bounds as the listing route. -/
def search_foods_endpoint (db : DB) (q : String) (skip limit : Int) :
    ApiResult (List FoodItem) :=
  if skip < 0 ∨ limit < 1 ∨ limit > 1000 then
    .error { status_code := 422, detail := "Unprocessable Entity" }
  else
    .ok (search_foods db q skip.toNat limit.toNat)

/-- `get_nutrition_logs_endpoint` (`main.py` lines 229-238): same
pagination bounds, with an optional food-id filter. -/
def get_nutrition_logs_endpoint (db : DB) (food_id : Option Nat)
    (skip limit : Int) : ApiResult (List NutritionLogEntry) :=
  if skip < 0 ∨ limit < 1 ∨ limit > 1000 then
    .error { status_code := 422, detail := "Unprocessable Entity" }
  else
    .ok (get_nutrition_logs db food_id skip.toNat limit.toNat)

/-- `get_expiring_foods_endpoint` (`main.py` lines 275-282):
`Query(7, ge=1, le=365)` bounds the look-ahead window. -/
def get_expiring_foods_endpoint (db : DB) (days_ahead : Int) :
    ApiResult (List FoodItem) :=
  if days_ahead < 1 ∨ days_ahead > 365 then
    .error { status_code := 422, detail := "Unprocessable Entity" }
  else
    .ok (get_expiring_foods db days_ahead.toNat)

/-- `get_low_stock_foods_endpoint` (`main.py` lines 285-292):
`Query(5, ge=0)` bounds the threshold below. -/
def get_low_stock_foods_endpoint (db : DB) (threshold : Int) :
    ApiResult (List FoodItem) :=
  if threshold < 0 then
    .error { status_code := 422, detail := "Unprocessable Entity" }
  else
    .ok (get_low_stock_foods db threshold)

/-- `bulk_import_endpoint` (`main.py` lines 242-258): runs the importer;
when anything inside the handler raises with message `e`, the response is
a 500 whose detail is the f-string `"Bulk import failed: {str(e)}"`
(line 257) — the internal exception text is embedded in the client-facing
detail.  `internalFailure` models whether such an exception occurred. -/
def bulk_import_endpoint (db : DB) (rows : List RawRow)
    (internalFailure : Option String) : ApiResult (ImportReport × DB) :=
  match internalFailure with
  | some e => .error { status_code := 500, detail := "Bulk import failed: " ++ e }
  | none => .ok (bulk_import_from_dataframe db rows)

/-- Error payload returned by the exception handlers (schema
`ErrorResponse`). -/
structure ErrorResponse where
  detail : String
  error_code : String
  timestamp : Nat
deriving DecidableEq, Repr

/-- `general_exception_handler` (`main.py` lines 306-314): logs the
exception text server-side and answers with the fixed opaque detail
"Internal server error".  Returns the response together with the log
line. -/
def general_exception_handler (exc : String) (now : Nat) :
    ErrorResponse × String :=
  ({ detail := "Internal server error", error_code := "500", timestamp := now },
   "Unhandled exception: " ++ exc)

/-- A store with three rows sharing barcode "X". -/
def dbThreeX : DB :=
  { foods := [ { id := 0, barcode := "X", name := "a" },
               { id := 1, barcode := "X", name := "b" },
               { id := 2, barcode := "X", name := "c" } ],
    nextFoodId := 3 }

/-- A store with a single row of barcode "X". -/
def dbOneX : DB :=
  { foods := [ { id := 0, barcode := "X", name := "a" } ], nextFoodId := 1 }

/-- An item with quantity 3, and a store holding only it. -/
def itemQty3 : FoodItem := { id := 0, barcode := "B", name := "N", quantity := 3 }

/-- A one-item store whose item has quantity 3. -/
def dbQty3 : DB := { foods := [itemQty3], nextFoodId := 1 }

/-- A bulk-import row whose expiry date is not in `YYYY-MM-DD` format
(the spec §8 example). -/
def rowBadDate : RawRow :=
  { barcode := some "3", name := some "C", expiry_date := some "31-12-2024" }

/-- Field-wise meaning of a partial update on a stored item: a null
field of the payload leaves the stored value untouched, a present field
overwrites it, and the generated identifier and creation timestamp are
immutable. -/
def UpdateApplied (f f' : FoodItem) (u : FoodUpdate) : Prop :=
  (u.barcode = none → f'.barcode = f.barcode) ∧
  (∀ v, u.barcode = some v → f'.barcode = v) ∧
  (u.name = none → f'.name = f.name) ∧
  (∀ v, u.name = some v → f'.name = v) ∧
  (u.brand = none → f'.brand = f.brand) ∧
  (∀ v, u.brand = some v → f'.brand = some v) ∧
  (u.category = none → f'.category = f.category) ∧
  (∀ v, u.category = some v → f'.category = some v) ∧
  (u.calories = none → f'.calories = f.calories) ∧
  (∀ v, u.calories = some v → f'.calories = some v) ∧
  (u.protein = none → f'.protein = f.protein) ∧
  (∀ v, u.protein = some v → f'.protein = some v) ∧
  (u.fat = none → f'.fat = f.fat) ∧
  (∀ v, u.fat = some v → f'.fat = some v) ∧
  (u.carbs = none → f'.carbs = f.carbs) ∧
  (∀ v, u.carbs = some v → f'.carbs = some v) ∧
  (u.fiber = none → f'.fiber = f.fiber) ∧
  (∀ v, u.fiber = some v → f'.fiber = some v) ∧
  (u.sugars = none → f'.sugars = f.sugars) ∧
  (∀ v, u.sugars = some v → f'.sugars = some v) ∧
  (u.sodium = none → f'.sodium = f.sodium) ∧
  (∀ v, u.sodium = some v → f'.sodium = some v) ∧
  (u.allergens = none → f'.allergens = f.allergens) ∧
  (∀ v, u.allergens = some v → f'.allergens = v) ∧
  (u.expiry_date = none → f'.expiry_date = f.expiry_date) ∧
  (∀ v, u.expiry_date = some v → f'.expiry_date = some v) ∧
  (u.quantity = none → f'.quantity = f.quantity) ∧
  (∀ v, u.quantity = some v → f'.quantity = v) ∧
  (u.location = none → f'.location = f.location) ∧
  (∀ v, u.location = some v → f'.location = some v) ∧
  f'.id = f.id ∧ f'.created_at = f.created_at

/-- Well-formed store: every stored id is below the id counter, so a
freshly generated id collides with no existing row. -/
def WFdb (db : DB) : Prop := ∀ f ∈ db.foods, f.id < db.nextFoodId

/-- Fields of a fruit used as concrete create payload. -/
def fcApple : FoodCreate := { barcode := "123456789", name := "Apple" }

/-!  ## Theorems  -/

/-- C9: HealthCheck always returns status "healthy" with the current
timestamp, unconditionally: the route never consults the store, and a
database initialization or connection failure during startup only
produces log lines without changing the health response or the store. -/
theorem C9_health_check_unconditional (db : DB) (createOk connOk c2 k2 : Bool)
    (now : Nat) :
    server_health (startServer db createOk connOk) now =
      { status := "healthy", timestamp := now } ∧
    server_health (startServer db createOk connOk) now =
      server_health (startServer db c2 k2) now ∧
    (startServer db createOk connOk).db = db ∧
    startServer db false false =
      { db := db, startupLogs := ["Startup error"] } :=
  ⟨rfl, rfl, rfl, rfl⟩

/-- C10: the paginated reads enforce their parameter bounds before any
query runs: out-of-range `skip`/`limit` (or `days_ahead`) produce a 422
whose value is independent of the store, so the query layer is never
consulted. -/
theorem C10_parameter_bounds_enforced (db db2 : DB) (skip limit days : Int)
    (q : String) (fid : Option Nat)
    (hb : skip < 0 ∨ limit < 1 ∨ limit > 1000)
    (hd : days < 1 ∨ days > 365) :
    (get_foods_endpoint db skip limit =
        .error { status_code := 422, detail := "Unprocessable Entity" } ∧
     get_foods_endpoint db skip limit = get_foods_endpoint db2 skip limit) ∧
    (search_foods_endpoint db q skip limit =
        .error { status_code := 422, detail := "Unprocessable Entity" } ∧
     search_foods_endpoint db q skip limit =
       search_foods_endpoint db2 q skip limit) ∧
    (get_nutrition_logs_endpoint db fid skip limit =
        .error { status_code := 422, detail := "Unprocessable Entity" } ∧
     get_nutrition_logs_endpoint db fid skip limit =
       get_nutrition_logs_endpoint db2 fid skip limit) ∧
    (get_expiring_foods_endpoint db days =
        .error { status_code := 422, detail := "Unprocessable Entity" } ∧
     get_expiring_foods_endpoint db days =
       get_expiring_foods_endpoint db2 days) := by
  unfold get_foods_endpoint search_foods_endpoint get_nutrition_logs_endpoint
    get_expiring_foods_endpoint
  rw [if_pos hb, if_pos hb, if_pos hb, if_pos hb, if_pos hb, if_pos hb,
    if_pos hd, if_pos hd]
  exact ⟨⟨rfl, rfl⟩, ⟨rfl, rfl⟩, ⟨rfl, rfl⟩, ⟨rfl, rfl⟩⟩

/-- Witness for C10 at `skip = -1`, `limit = 100`, `days_ahead = 0`. -/
theorem C10_parameter_bounds_enforced_witness :
    get_foods_endpoint {} (-1) 100 =
      .error { status_code := 422, detail := "Unprocessable Entity" } ∧
    get_expiring_foods_endpoint {} 0 =
      .error { status_code := 422, detail := "Unprocessable Entity" } :=
  ⟨(C10_parameter_bounds_enforced {} {} (-1) 100 0 "" none
      (by decide) (by decide)).1.1,
   (C10_parameter_bounds_enforced {} {} (-1) 100 0 "" none
      (by decide) (by decide)).2.2.2.1⟩

/-- C7 as stated is false on the code: the bulk-import route of
`main.py` (line 257) embeds the internal exception text in the
client-facing `detail`, so the response is not an opaque message and
depends on the internal error. -/
theorem C7_counterexample :
    bulk_import_endpoint {} [] (some "database connection lost") =
      .error { status_code := 500,
               detail := "Bulk import failed: database connection lost" } ∧
    bulk_import_endpoint {} [] (some "errA") ≠
      bulk_import_endpoint {} [] (some "errB") := by
  refine ⟨rfl, ?_⟩
  intro h
  simp only [bulk_import_endpoint, Except.error.injEq, HTTPError.mk.injEq] at h
  exact absurd h.2 (by decide)

/-- C7 amended: internal failures are surfaced through the general
exception handler as the fixed opaque detail "Internal server error"
(independent of the exception) with the exception text logged
server-side, except the BulkImport route, whose 500 response embeds the
underlying exception text in its detail. -/
theorem C7_amended_internal_error_surfacing (e e2 : String) (now : Nat)
    (db : DB) (rows : List RawRow) :
    (general_exception_handler e now).1.detail = "Internal server error" ∧
    (general_exception_handler e now).1 = (general_exception_handler e2 now).1 ∧
    (general_exception_handler e now).2 = "Unhandled exception: " ++ e ∧
    bulk_import_endpoint db rows (some e) =
      .error { status_code := 500, detail := "Bulk import failed: " ++ e } :=
  ⟨rfl, rfl, rfl, rfl⟩

/-- C3 as stated is false on the code: the barcode-delete route returns
a fixed confirmation message, not the count — with three matching rows
the internal count is 3, with one it is 1, yet the client-visible
response is identical in both cases. -/
theorem C3_counterexample :
    (delete_food_by_barcode dbThreeX "X").1 = 3 ∧
    (delete_food_by_barcode dbOneX "X").1 = 1 ∧
    clientView (delete_food_by_barcode_endpoint dbThreeX "X") =
      clientView (delete_food_by_barcode_endpoint dbOneX "X") :=
  ⟨rfl, rfl, rfl⟩

/-- C3 amended: DeleteFoodByBarcode deletes every row whose barcode
matches (none survive, non-matching rows are untouched), computes the
number deleted internally, signals NotFound when zero rows match — so a
second call after a successful delete returns NotFound — but answers a
successful call with a fixed confirmation message naming only the
barcode, without the count. -/
theorem C3_delete_by_barcode (db : DB) (b : String) :
    (delete_food_by_barcode db b).1 =
      (db.foods.filter (fun f => f.barcode == b)).length ∧
    (∀ f ∈ (delete_food_by_barcode db b).2.foods, f.barcode ≠ b) ∧
    (∀ f ∈ db.foods, f.barcode ≠ b → f ∈ (delete_food_by_barcode db b).2.foods) ∧
    ((delete_food_by_barcode db b).1 = 0 →
      delete_food_by_barcode_endpoint db b =
        .error { status_code := 404,
                 detail := "No food items found with this barcode" }) ∧
    ((delete_food_by_barcode db b).1 ≠ 0 →
      delete_food_by_barcode_endpoint db b =
        .ok ("All food items with barcode " ++ b ++ " have been deleted",
             (delete_food_by_barcode db b).2)) ∧
    delete_food_by_barcode_endpoint (delete_food_by_barcode db b).2 b =
      .error { status_code := 404,
               detail := "No food items found with this barcode" } := by
  refine ⟨rfl, ?_, ?_, ?_, ?_, ?_⟩
  · intro f hf
    have h2 : f ∈ db.foods.filter (fun g => g.barcode != b) := hf
    have := (List.mem_filter.mp h2).2
    simpa [bne_iff_ne] using this
  · intro f hf hne
    have h2 : f ∈ db.foods.filter (fun g => g.barcode != b) :=
      List.mem_filter.mpr ⟨hf, by simpa [bne_iff_ne] using hne⟩
    exact h2
  · intro h0
    simp [delete_food_by_barcode_endpoint, h0]
  · intro hne
    simp [delete_food_by_barcode_endpoint, hne]
  · have hnil : ((delete_food_by_barcode db b).2.foods.filter
        (fun f => f.barcode == b)) = [] := by
      rw [List.filter_eq_nil_iff]
      intro f hf
      have h2 : f ∈ db.foods.filter (fun g => g.barcode != b) := hf
      have h3 := (List.mem_filter.mp h2).2
      simp only [bne_iff_ne, ne_eq] at h3
      simp [h3]
    have hcount : (delete_food_by_barcode (delete_food_by_barcode db b).2 b).1 = 0 := by
      show ((delete_food_by_barcode db b).2.foods.filter
        (fun f => f.barcode == b)).length = 0
      rw [hnil]
      rfl
    simp [delete_food_by_barcode_endpoint, hcount]

/-- Full characterisation of the bulk-import worker, by induction on the
batch: the report counts every row, counts valid and invalid rows
separately, lists exactly the invalid row indices with reason
"missing required field", and the store grows by exactly the valid rows
with the earlier contents preserved. -/
theorem bulkImportGo_characterisation (rows : List RawRow) :
    ∀ (db : DB) (idx : Nat),
    (bulkImportGo db idx rows).1.totalRows = rows.length ∧
    (bulkImportGo db idx rows).1.succeeded = (rows.filter rowValid).length ∧
    (bulkImportGo db idx rows).1.failed =
      (rows.filter (fun r => !rowValid r)).length ∧
    (bulkImportGo db idx rows).1.perRowErrors =
      ((List.enumFrom idx rows).filter (fun p => !rowValid p.2)).map
        (fun p => (p.1, "missing required field")) ∧
    ∃ newItems, (bulkImportGo db idx rows).2.foods = db.foods ++ newItems ∧
      newItems.length = (rows.filter rowValid).length := by
  induction rows with
  | nil =>
    intro db idx
    exact ⟨rfl, rfl, rfl, rfl, [], by simp [bulkImportGo], rfl⟩
  | cons r rs ih =>
    intro db idx
    by_cases h : rowValid r
    · obtain ⟨h1, h2, h3, h4, newItems, h5, h6⟩ :=
        ih ((create_food db (normalizeValidRow r)).2) (idx + 1)
      refine ⟨?_, ?_, ?_, ?_, ?_⟩
      · simp [bulkImportGo, h, h1]
      · simp [bulkImportGo, h, h2, List.filter_cons]
      · simp [bulkImportGo, h, h3, List.filter_cons]
      · simp [bulkImportGo, h, h4, List.enumFrom_cons, List.filter_cons]
      · refine ⟨(create_food db (normalizeValidRow r)).1 :: newItems, ?_, ?_⟩
        · simp only [bulkImportGo, h, if_true]
          rw [h5]
          simp [create_food]
        · simp [h6, List.filter_cons, h]
    · obtain ⟨h1, h2, h3, h4, newItems, h5, h6⟩ := ih db (idx + 1)
      refine ⟨?_, ?_, ?_, ?_, ?_⟩
      · simp [bulkImportGo, h, h1]
      · simp [bulkImportGo, h, h2, List.filter_cons]
      · simp [bulkImportGo, h, h3, List.filter_cons]
      · simp [bulkImportGo, h, h4, List.enumFrom_cons, List.filter_cons]
      · exact ⟨newItems, by simp [bulkImportGo, h, h5], by
          simp [h6, List.filter_cons, h]⟩

/-- C1: a bulk-import row with a missing or empty barcode or name is
rejected with reason "missing required field" and excluded from
insertion, every other row of the batch is still inserted, a row failure
never aborts the batch, and the batch operation itself answers with a
success report itemizing the per-row failures. -/
theorem C1_bulk_import_row_isolation (db : DB) (rows : List RawRow) :
    bulk_import_endpoint db rows none =
      .ok (bulk_import_from_dataframe db rows) ∧
    (bulk_import_from_dataframe db rows).1.totalRows = rows.length ∧
    (bulk_import_from_dataframe db rows).1.succeeded =
      (rows.filter rowValid).length ∧
    (bulk_import_from_dataframe db rows).1.failed =
      (rows.filter (fun r => !rowValid r)).length ∧
    (bulk_import_from_dataframe db rows).1.perRowErrors =
      (rows.enum.filter (fun p => !rowValid p.2)).map
        (fun p => (p.1, "missing required field")) ∧
    ∃ newItems,
      (bulk_import_from_dataframe db rows).2.foods = db.foods ++ newItems ∧
      newItems.length = (rows.filter rowValid).length := by
  obtain ⟨h1, h2, h3, h4, h5⟩ := bulkImportGo_characterisation rows db 0
  exact ⟨rfl, h1, h2, h3, by simpa [List.enum] using h4, h5⟩

/-- C4: a bulk-import row whose `expiry_date` is present but does not
parse as `YYYY-MM-DD` is imported successfully with the expiry treated
as absent — both in the client-side cleanup of
`import_example.prepare_food_data` (the cell becomes null, no error) and
in the importer (the row is inserted, counted a success, and the stored
item has no expiry date). -/
theorem C4_unparseable_expiry_is_lenient (db : DB) (r : RawRow) (s : String)
    (hv : rowValid r = true) (he : r.expiry_date = some s)
    (hp : parseYMD s = none) :
    (s ≠ "" → ∃ r', prepareItem r = .ok r' ∧ r'.expiry_date = none) ∧
    (bulk_import_from_dataframe db [r]).1 =
      { totalRows := 1, succeeded := 1, failed := 0, perRowErrors := [] } ∧
    (bulk_import_from_dataframe db [r]).2.foods =
      db.foods ++ [(create_food db (normalizeValidRow r)).1] ∧
    (create_food db (normalizeValidRow r)).1.expiry_date = none := by
  have hbn : missingStr r.barcode = false ∧ missingStr r.name = false := by
    rcases Bool.or_eq_false_iff.mp (by simpa [rowValid] using hv) with ⟨hb, hn⟩
    exact ⟨hb, hn⟩
  refine ⟨?_, ?_, ?_, ?_⟩
  · intro hs
    refine ⟨{ r with
      quantity := match r.quantity with
        | none => some 1
        | some v => some v,
      allergens := match r.allergens with
        | .str s => if s.isEmpty then .list [] else .list [s]
        | a => a,
      expiry_date := none }, ?_, rfl⟩
    simp only [prepareItem, hbn.1, hbn.2, Bool.false_eq_true, if_false]
    rw [he]
    simp [String.isEmpty_iff, hs, hp]
  · simp [bulk_import_from_dataframe, bulkImportGo, hv]
  · simp [bulk_import_from_dataframe, bulkImportGo, hv, create_food]
  · simp [create_food, normalizeValidRow, he, hp]

/-- Witness for C4 at the concrete row with `expiry_date` "31-12-2024". -/
theorem C4_unparseable_expiry_is_lenient_witness :
    (bulk_import_from_dataframe {} [rowBadDate]).1 =
      { totalRows := 1, succeeded := 1, failed := 0, perRowErrors := [] } ∧
    (create_food {} (normalizeValidRow rowBadDate)).1.expiry_date = none :=
  ⟨(C4_unparseable_expiry_is_lenient {} rowBadDate "31-12-2024"
      (by decide) rfl (by decide)).2.1,
   (C4_unparseable_expiry_is_lenient {} rowBadDate "31-12-2024"
      (by decide) rfl (by decide)).2.2.2⟩

/-- Replacing, in place, the first (and every) entry whose id matches
makes an id lookup return the replacement, provided the replacement
keeps a matching id. -/
theorem find?_map_upd (l : List FoodItem) (id : Nat) (f f' : FoodItem)
    (hid : (f'.id == id) = true) :
    l.find? (fun g => g.id == id) = some f →
    (l.map (fun g => if g.id == id then f' else g)).find?
      (fun g => g.id == id) = some f' := by
  induction l with
  | nil => intro h; simp at h
  | cons a as ih =>
    intro h
    by_cases ha : (a.id == id) = true
    · simp only [List.map_cons, if_pos ha]
      exact List.find?_cons_of_pos _ hid
    · rw [List.find?_cons_of_neg as ha] at h
      simp only [List.map_cons, if_neg ha]
      exact (List.find?_cons_of_neg (p := fun g => g.id == id)
        (List.map (fun g => if (g.id == id) = true then f' else g) as)
        ha).trans (ih h)

/-- C2: AdjustQuantity on a nonexistent id answers NotFound and leaves
the state fully unchanged (no quantity change, no log entry); on an
existing id the quantity delta and the appended log entry persist
together in the one resulting state, never one without the other. -/
theorem C2_adjust_quantity_atomic (db : DB) (id : Nat) (delta : Int)
    (action : String) :
    (get_food_by_id db id = none →
       update_quantity_endpoint db id ⟨delta, action⟩ =
         .error { status_code := 404, detail := "Food not found" } ∧
       update_quantity db id delta action = (none, db)) ∧
    (∀ f, get_food_by_id db id = some f →
       ∃ f' db', update_quantity db id delta action = (some f', db') ∧
         f'.quantity = f.quantity + delta ∧
         f'.id = f.id ∧
         get_food_by_id db' id = some f' ∧
         db'.logs = db.logs ++
           [{ id := db.nextLogId, food_id := id, quantity := delta,
              action := action, timestamp := db.now }] ∧
         db'.logs.length = db.logs.length + 1) := by
  constructor
  · intro hnone
    constructor
    · simp [update_quantity_endpoint, update_quantity, hnone]
    · simp [update_quantity, hnone]
  · intro f hf
    have hf' : db.foods.find? (fun g => g.id == id) = some f := hf
    have hfid := List.find?_some hf'
    refine ⟨{ f with quantity := f.quantity + delta, updated_at := db.now },
      { db with
        foods := db.foods.map (fun g => if g.id == id then
          { f with quantity := f.quantity + delta, updated_at := db.now } else g),
        logs := db.logs ++
          [{ id := db.nextLogId, food_id := id, quantity := delta,
             action := action, timestamp := db.now }],
        nextLogId := db.nextLogId + 1 },
      ?_, rfl, rfl, ?_, rfl, by simp⟩
    · simp [update_quantity, hf]
    · exact find?_map_upd db.foods id f _ hfid hf'

/-- Witness for C2: a nonexistent id on the empty store answers 404 with
the store untouched, and the §8 example — quantity 3 adjusted by −5 —
lands at −2 with exactly one new log entry in the same state. -/
theorem C2_adjust_quantity_atomic_witness :
    update_quantity_endpoint ({} : DB) 99 ⟨-5, "consumed"⟩ =
      .error { status_code := 404, detail := "Food not found" } ∧
    update_quantity ({} : DB) 99 (-5) "consumed" = (none, {}) ∧
    (update_quantity dbQty3 0 (-5) "consumed").1.map FoodItem.quantity =
      some (-2) ∧
    (update_quantity dbQty3 0 (-5) "consumed").2.logs.length = 1 := by
  obtain ⟨hnf, _⟩ := C2_adjust_quantity_atomic ({} : DB) 99 (-5) "consumed"
  obtain ⟨h404, hunch⟩ := hnf (by decide)
  obtain ⟨f', db', heq, hq, _, _, _, hlen⟩ :=
    (C2_adjust_quantity_atomic dbQty3 0 (-5) "consumed").2 itemQty3 (by decide)
  refine ⟨h404, hunch, ?_, ?_⟩
  · rw [heq]
    show some f'.quantity = some (-2)
    rw [hq]
    decide
  · rw [heq]
    simpa using hlen

/-- `applyUpdate` realises the field-wise partial-update semantics. -/
theorem updateApplied_applyUpdate (f : FoodItem) (u : FoodUpdate) (now : Nat) :
    UpdateApplied f (applyUpdate f u now) u := by
  unfold UpdateApplied applyUpdate updOpt
  refine ⟨?_, ?_, ?_, ?_, ?_, ?_, ?_, ?_, ?_, ?_, ?_, ?_, ?_, ?_, ?_, ?_,
    ?_, ?_, ?_, ?_, ?_, ?_, ?_, ?_, ?_, ?_, ?_, ?_, ?_, ?_, rfl, rfl⟩
  all_goals first
    | (intro h; simp [h])
    | (intro v h; simp [h])

/-- C5: UpdateFood with an empty payload (every field null) answers 400
rather than succeeding as a no-op; with a non-empty payload and an
existing id, exactly the non-null fields are applied and null fields are
left untouched, and the result persists in the store; with a missing id
it answers 404. -/
theorem C5_update_food_semantics (db : DB) (id : Nat) (u : FoodUpdate) :
    (u.isEmptyUpdate = true →
       update_food_endpoint db id u =
         .error { status_code := 400, detail := "No update data provided" }) ∧
    (u.isEmptyUpdate = false → get_food_by_id db id = none →
       update_food_endpoint db id u =
         .error { status_code := 404, detail := "Food not found" }) ∧
    (∀ f, u.isEmptyUpdate = false → get_food_by_id db id = some f →
       ∃ db', update_food_endpoint db id u = .ok (applyUpdate f u db.now, db') ∧
         get_food_by_id db' id = some (applyUpdate f u db.now) ∧
         UpdateApplied f (applyUpdate f u db.now) u) := by
  refine ⟨?_, ?_, ?_⟩
  · intro he
    simp [update_food_endpoint, he]
  · intro hne hnf
    simp [update_food_endpoint, hne, update_food, hnf]
  · intro f hne hf
    have hf' : db.foods.find? (fun g => g.id == id) = some f := hf
    have hfid := List.find?_some hf'
    refine ⟨{ db with foods := db.foods.map (fun g =>
        if g.id == id then applyUpdate f u db.now else g) }, ?_, ?_, ?_⟩
    · simp [update_food_endpoint, hne, update_food, hf]
    · exact find?_map_upd db.foods id f _ hfid hf'
    · exact updateApplied_applyUpdate f u db.now

/-- Witness for C5: the empty payload answers 400, and a payload for a
missing id answers 404, on the one-item store. -/
theorem C5_update_food_semantics_witness :
    update_food_endpoint dbQty3 0 {} =
      .error { status_code := 400, detail := "No update data provided" } ∧
    update_food_endpoint dbQty3 99 { name := some "Z" } =
      .error { status_code := 404, detail := "Food not found" } :=
  ⟨(C5_update_food_semantics dbQty3 0 {}).1 (by decide),
   (C5_update_food_semantics dbQty3 99 { name := some "Z" }).2.1
     (by decide) (by decide)⟩

/-- Appending a row whose id matches nothing in the prefix makes an id
lookup for it succeed. -/
theorem find?_append_fresh (l : List FoodItem) (x : FoodItem)
    (h : ∀ g ∈ l, (g.id == x.id) = false) :
    (l ++ [x]).find? (fun g => g.id == x.id) = some x := by
  rw [List.find?_append]
  rw [List.find?_eq_none.mpr (by intro g hg; simp [h g hg])]
  simp

/-- Creating a food preserves store well-formedness. -/
theorem wfdb_create (db : DB) (fc : FoodCreate) (hwf : WFdb db) :
    WFdb (create_food db fc).2 := by
  intro f hf
  have hf' : f ∈ db.foods ++ [(create_food db fc).1] := hf
  rcases List.mem_append.mp hf' with hm | hm
  · exact Nat.lt_succ_of_lt (hwf f hm)
  · rcases List.mem_singleton.mp hm with rfl
    exact Nat.lt_succ_self _

/-- C6: CreateFood always inserts a new row and succeeds even when the
barcode duplicates an existing row, producing a second independent
record with a distinct identifier; the created item equals the input on
every non-generated field and is returned by a subsequent GetFood(id),
also after the duplicate-barcode creation. -/
theorem C6_create_allows_duplicate_barcodes (db : DB) (fc fc2 : FoodCreate)
    (hwf : WFdb db) (hbar : fc2.barcode = fc.barcode) :
    create_food_endpoint db fc = .ok (create_food db fc) ∧
    ((create_food db fc).1.barcode = fc.barcode ∧
     (create_food db fc).1.name = fc.name ∧
     (create_food db fc).1.brand = fc.brand ∧
     (create_food db fc).1.category = fc.category ∧
     (create_food db fc).1.calories = fc.calories ∧
     (create_food db fc).1.protein = fc.protein ∧
     (create_food db fc).1.fat = fc.fat ∧
     (create_food db fc).1.carbs = fc.carbs ∧
     (create_food db fc).1.fiber = fc.fiber ∧
     (create_food db fc).1.sugars = fc.sugars ∧
     (create_food db fc).1.sodium = fc.sodium ∧
     (create_food db fc).1.allergens = fc.allergens ∧
     (create_food db fc).1.expiry_date = fc.expiry_date ∧
     (create_food db fc).1.quantity = fc.quantity ∧
     (create_food db fc).1.location = fc.location) ∧
    get_food_by_id (create_food db fc).2 (create_food db fc).1.id =
      some (create_food db fc).1 ∧
    (create_food (create_food db fc).2 fc2).1.id ≠ (create_food db fc).1.id ∧
    (create_food (create_food db fc).2 fc2).1.barcode =
      (create_food db fc).1.barcode ∧
    get_food_by_id (create_food (create_food db fc).2 fc2).2
        (create_food db fc).1.id = some (create_food db fc).1 ∧
    get_food_by_id (create_food (create_food db fc).2 fc2).2
        (create_food (create_food db fc).2 fc2).1.id =
      some (create_food (create_food db fc).2 fc2).1 := by
  have hfresh1 : ∀ g ∈ db.foods, (g.id == (create_food db fc).1.id) = false := by
    intro g hg
    simpa using Nat.ne_of_lt (hwf g hg)
  have hlook1 : get_food_by_id (create_food db fc).2 (create_food db fc).1.id =
      some (create_food db fc).1 :=
    find?_append_fresh db.foods _ hfresh1
  have hwf2 := wfdb_create db fc hwf
  refine ⟨rfl,
    ⟨rfl, rfl, rfl, rfl, rfl, rfl, rfl, rfl, rfl, rfl, rfl, rfl, rfl, rfl, rfl⟩,
    hlook1, ?_, hbar, ?_, ?_⟩
  · exact Nat.succ_ne_self db.nextFoodId
  · show ((db.foods ++ [(create_food db fc).1]) ++
        [(create_food (create_food db fc).2 fc2).1]).find?
        (fun g => g.id == (create_food db fc).1.id) = some (create_food db fc).1
    have hlook1' : (db.foods ++ [(create_food db fc).1]).find?
        (fun g => g.id == (create_food db fc).1.id) =
        some (create_food db fc).1 := hlook1
    rw [List.find?_append, hlook1']
    rfl
  · exact find?_append_fresh ((create_food db fc).2.foods) _
      (fun g hg => by simpa using Nat.ne_of_lt (hwf2 g hg))

/-- Witness for C6: two creations with the same barcode on the empty
store yield distinct ids, and the first stays retrievable. -/
theorem C6_create_allows_duplicate_barcodes_witness :
    (create_food (create_food {} fcApple).2 fcApple).1.id ≠
      (create_food {} fcApple).1.id ∧
    get_food_by_id (create_food (create_food {} fcApple).2 fcApple).2
        (create_food {} fcApple).1.id = some (create_food {} fcApple).1 :=
  ⟨(C6_create_allows_duplicate_barcodes {} fcApple fcApple
      (fun f hf => absurd hf (List.not_mem_nil f)) rfl).2.2.2.1,
   (C6_create_allows_duplicate_barcodes {} fcApple fcApple
      (fun f hf => absurd hf (List.not_mem_nil f)) rfl).2.2.2.2.2.1⟩

/-- C8: ListLowStock(threshold) returns exactly the items with quantity
strictly below the threshold, so ListLowStock(0) returns exactly the
items with negative quantity — a set reachable through the quantity
API, since an adjustment of −5 on a quantity of 3 lands at −2. -/
theorem C8_low_stock_strict_inequality (db : DB) (threshold : Int)
    (f : FoodItem) :
    (f ∈ get_low_stock_foods db threshold ↔
       f ∈ db.foods ∧ f.quantity < threshold) ∧
    (f ∈ get_low_stock_foods db 0 ↔ f ∈ db.foods ∧ f.quantity < 0) ∧
    get_low_stock_foods_endpoint db 0 = .ok (get_low_stock_foods db 0) ∧
    get_low_stock_foods (update_quantity dbQty3 0 (-5) "consumed").2 0 =
      [{ id := 0, barcode := "B", name := "N", quantity := -2 }] := by
  refine ⟨?_, ?_, ?_, ?_⟩
  · simp [get_low_stock_foods, List.mem_filter]
  · simp [get_low_stock_foods, List.mem_filter]
  · simp [get_low_stock_foods_endpoint]
  · decide

/-- Witness for C8: the −2-quantity item produced by the −5 adjustment
is a member of ListLowStock(0). -/
theorem C8_low_stock_strict_inequality_witness :
    ({ id := 0, barcode := "B", name := "N", quantity := -2 } : FoodItem) ∈
      get_low_stock_foods (update_quantity dbQty3 0 (-5) "consumed").2 0 :=
  ((C8_low_stock_strict_inequality
      (update_quantity dbQty3 0 (-5) "consumed").2 0
      { id := 0, barcode := "B", name := "N", quantity := -2 }).2.1).mpr
    ⟨by decide, by decide⟩

/-- Witness for C3's amended theorem at the three-row store. -/
theorem C3_delete_by_barcode_witness :
    delete_food_by_barcode_endpoint dbThreeX "X" =
      .ok ("All food items with barcode X have been deleted",
           (delete_food_by_barcode dbThreeX "X").2) ∧
    delete_food_by_barcode_endpoint (delete_food_by_barcode dbThreeX "X").2 "X" =
      .error { status_code := 404,
               detail := "No food items found with this barcode" } :=
  ⟨(C3_delete_by_barcode dbThreeX "X").2.2.2.2.1 (by decide),
   (C3_delete_by_barcode dbThreeX "X").2.2.2.2.2⟩

end FoodBank
